import Mathlib

/-!
Shallow embedding of `src/trabalho_final/workflow_analyzer.py` (n8n Workflow
Security Analyzer).

The parsed workflow document is modelled as a tagged JSON tree.  Python
runtime errors (`AttributeError`, `TypeError`, `KeyError`) raised by the
dynamically typed code are modelled with `Except String`: a `.error` value
is an uncaught Python exception escaping the modelled function.

Modelling notes, kept faithful to the source:
* JSON numbers are modelled as `Int` (the source never does numeric work on
  document values; float/int unification of Python `==` is out of scope of
  every claim).
* Python dicts are modelled as association lists in insertion order with
  unique-key lookup returning the first binding (`json.load` produces
  unique keys).
* The filesystem, the two external subprocesses and the wall clock are
  ambient inputs of the program; they are made explicit as an `Env` record.
  `json.load`/`json.loads` text parsing is part of that external boundary:
  a file or a captured stdout carries either a parsed JSON value or a
  parse-failure marker.
-/

set_option autoImplicit false

inductive Json where
  | null
  | bool (b : Bool)
  | num (n : Int)
  | str (s : String)
  | arr (elems : List Json)
  | obj (fields : List (String × Json))

/-- Python hashability of a JSON value: lists and dicts are unhashable. -/
def Json.hashable : Json → Bool
  | .arr _ => false
  | .obj _ => false
  | _ => true

/-- Python `==` between two hashable (scalar) JSON values, used for dict
keys.  (the Python coercion `True == 1` is not modelled; no claim involves
mixed-type node `type` values.) -/
def Json.scalarEq : Json → Json → Bool
  | .null, .null => true
  | .bool a, .bool b => a == b
  | .num a, .num b => a == b
  | .str a, .str b => a == b
  | _, _ => false

/-- Python truthiness (`if value:` / `if not value:`) of a JSON value. -/
def pyFalsy : Json → Bool
  | .null => true
  | .bool b => !b
  | .num n => n == 0
  | .str s => s == ""
  | .arr xs => xs.isEmpty
  | .obj fs => fs.isEmpty

/-- Python `value.get(key, default)`: a method of `dict` only; on any other value
Python raises `AttributeError`. -/
def attrGet (v : Json) (key : String) (dflt : Json) : Except String Json :=
  match v with
  | .obj fields =>
      match fields.lookup key with
      | some x => .ok x
      | none => .ok dflt
  | _ => .error "AttributeError: object has no attribute get"

/-- Python `value.values()`: a method of `dict` only. -/
def dictValues (v : Json) : Except String (List Json) :=
  match v with
  | .obj fields => .ok (fields.map Prod.snd)
  | _ => .error "AttributeError: object has no attribute values"

/-- Python `value.append(x)`: a method of `list` only. -/
def pyAppend (v : Json) (x : Json) : Except String Json :=
  match v with
  | .arr xs => .ok (.arr (xs ++ [x]))
  | _ => .error "AttributeError: object has no attribute append"

/-- Substring test (`key in s` for strings); `key` is always one of the
non-empty literals of the source. -/
def strContains (s key : String) : Bool :=
  (s.splitOn key).length != 1

/-- Python `key in value` for a string `key`: dict key membership, list
element equality, string substring; `TypeError` on scalars. -/
def pyContains (key : String) : Json → Except String Bool
  | .obj fields => .ok (fields.any (fun p => p.1 == key))
  | .arr xs => .ok (xs.any (fun v => match v with | .str s => s == key | _ => false))
  | .str s => .ok (strContains s key)
  | _ => .error "TypeError: argument of type is not a container"

/-- Python `value[key]` for a string `key`: dict lookup (`KeyError` when
absent), `TypeError` on everything else (list/str demand integer indices). -/
def pySubscript (v : Json) (key : String) : Except String Json :=
  match v with
  | .obj fields =>
      match fields.lookup key with
      | some x => .ok x
      | none => .error ("KeyError: " ++ key)
  | _ => .error "TypeError: indices must be integers"

/-- Python iteration `for x in value`: list elements, string characters,
dict keys; `TypeError` on scalars. -/
def pyIter : Json → Except String (List Json)
  | .arr xs => .ok xs
  | .str s => .ok (s.toList.map (fun c => .str (String.mk [c])))
  | .obj fields => .ok (fields.map (fun p => .str p.1))
  | _ => .error "TypeError: object is not iterable"

/-- Python `len(value)`: lists, strings and dicts; `TypeError` on scalars. -/
def pyLen : Json → Except String Nat
  | .arr xs => .ok xs.length
  | .str s => .ok s.length
  | .obj fields => .ok fields.length
  | _ => .error "TypeError: object has no len"

/-- The state of one path in the external world seen by the program:
absent, a directory (carrying, per glob pattern, the matching entries in
enumeration order), a file that raises `IOError` on read, a file whose text
is not valid JSON, or a file parsing to a JSON value. -/
inductive FileKind where
  | missing
  | directory (globEntries : String → List String)
  | unreadable (msg : String)
  | badJson (msg : String)
  | jsonFile (v : Json)

/-- Models `os.path.exists`. -/
def FileKind.existsB : FileKind → Bool
  | .missing => false
  | _ => true

/-- Models `os.path.isfile`. -/
def FileKind.isRegularFile : FileKind → Bool
  | .missing => false
  | .directory _ => false
  | _ => true

def FS : Type := String → FileKind

/-- Result of one `subprocess.run` invocation: captured stdout is either a
parsed JSON value or a parse-failure marker (the `json.loads` boundary). -/
inductive Parsed where
  | ok (v : Json)
  | bad (msg : String)

inductive SubprocResult where
  | completed (returncode : Int) (stdout : Parsed) (stderr : String)
  | timedOut
  | notFound
  | otherError (msg : String)

/-- The ambient world of one program run: filesystem, subprocess behaviour,
the two `datetime.now()` readings of `analyze` and the ISO timestamp. -/
structure Env where
  fs : FS
  subproc : List String → SubprocResult
  time0 : Nat
  time1 : Nat
  tstamp : String

/-- The `ValidationResult` dataclass. -/
structure ValidationResult where
  valid : Bool
  errors : List String
  warnings : List String

/-- The `WorkflowMetadata` dataclass.  `workflow_id`/`workflow_name` keep the
raw JSON values `workflow.get` returns; `node_types` is the insertion
ordered Python dict from `type` value to count. -/
structure WorkflowMetadata where
  filepath : String
  workflow_id : Json
  workflow_name : Json
  node_count : Nat
  node_types : List (Json × Nat)
  has_connections : Bool
  connections_count : Nat

/-- The `AnalysisResult` dataclass.  The findings of either tool are whatever
JSON value the adapter returned (the source annotates `List[Dict]` but does
not enforce it); `execution_time` is the difference of the two clock
readings. -/
structure AnalysisResult where
  workflow_path : String
  metadata : WorkflowMetadata
  agentic_radar_findings : Json
  semgrep_findings : Json
  total_findings : Nat
  execution_time : Int
  timestamp : String

/-- Warnings contributed by one node of the `nodes` list
(`validate_structure`, lines 129-140). -/
def nodeWarnings (idx : Nat) (node : Json) : List String :=
  match node with
  | .obj fields =>
      (["id", "name", "type"].filter (fun f => (fields.lookup f).isNone)).map
        (fun f => "Node at index " ++ toString idx ++ " missing field \x27" ++ f ++ "\x27")
  | _ => ["Node at index " ++ toString idx ++ " is not an object"]

/-- The `nodes` part of `validate_structure` (lines 121-140): the final
`valid` flag, the errors and the warnings it appends. -/
def nodesCheck (workflow : Json) : Except String (Bool × List String × List String) :=
  match pyContains "nodes" workflow with
  | .error e => .error e
  | .ok hasNodes =>
    if !hasNodes then
      .ok (false, ["Missing required field: \x27nodes\x27"], [])
    else
      match pySubscript workflow "nodes" with
      | .error e => .error e
      | .ok (.arr nodes) =>
          .ok (true, [], (nodes.enum.map (fun p => nodeWarnings p.1 p.2)).flatten)
      | .ok _ => .ok (false, ["Field \x27nodes\x27 must be an array"], [])

/-- The `connections` part of `validate_structure` (lines 143-146): the
warnings it appends (never an error). -/
def connectionsCheck (workflow : Json) : Except String (List String) :=
  match pyContains "connections" workflow with
  | .error e => .error e
  | .ok hasConn =>
    if !hasConn then
      .ok ["Workflow has no \x27connections\x27 field"]
    else
      match pySubscript workflow "connections" with
      | .error e => .error e
      | .ok (.obj _) => .ok []
      | .ok _ => .ok ["Field \x27connections\x27 should be an object"]

/-- Models `WorkflowValidator.validate_structure` (lines 108-148). -/
def validate_structure (workflow : Json) : Except String ValidationResult :=
  match nodesCheck workflow with
  | .error e => .error e
  | .ok (flag, errs, warns) =>
    match connectionsCheck workflow with
    | .error e => .error e
    | .ok connWarns => .ok ⟨flag, errs, warns ++ connWarns⟩

/-- Models `WorkflowValidator.load_workflow` (lines 68-106). -/
def load_workflow (fs : FS) (filepath : String) :
    Except String (Option Json × ValidationResult) :=
  match fs filepath with
  | .missing => .ok (none, ⟨false, ["File not found: " ++ filepath], []⟩)
  | .directory _ => .ok (none, ⟨false, ["Path is not a file: " ++ filepath], []⟩)
  | .badJson e => .ok (none, ⟨false, ["Invalid JSON syntax: " ++ e], []⟩)
  | .unreadable e => .ok (none, ⟨false, ["Cannot read file: " ++ e], []⟩)
  | .jsonFile w =>
    match validate_structure w with
    | .error e => .error e
    | .ok validation =>
      if !validation.valid then .ok (some w, validation)
      else .ok (some w, ⟨true, [], []⟩)

/-- Insert-or-increment into the insertion-ordered `node_types` dict. -/
def bumpCount (m : List (Json × Nat)) (k : Json) : List (Json × Nat) :=
  match m with
  | [] => [(k, 1)]
  | (k', v) :: rest =>
      if k'.scalarEq k then (k', v + 1) :: rest else (k', v) :: bumpCount rest k

/-- The node-type counting loop of `extract_metadata` (lines 162-165):
`node.get` raises on a non-dict node; an unhashable `type` value raises at
the dict update. -/
def countNodeTypes (acc : List (Json × Nat)) :
    List Json → Except String (List (Json × Nat))
  | [] => .ok acc
  | node :: rest =>
    match attrGet node "type" (.str "unknown") with
    | .error e => .error e
    | .ok t =>
      if t.hashable then countNodeTypes (bumpCount acc t) rest
      else .error "TypeError: unhashable type"

/-- The connection-counting expression of `extract_metadata` (lines
168-171): `connections.values()` raises on a non-dict; values that are not
dicts are skipped by the `isinstance` guard. -/
def count_connections (connections : Json) : Except String Nat :=
  match dictValues connections with
  | .error e => .error e
  | .ok vals =>
      .ok (vals.foldl
        (fun a c => match c with | .obj inner => a + inner.length | _ => a) 0)

/-- Models `WorkflowValidator.extract_metadata` (lines 150-181). -/
def extract_metadata (workflow : Json) (filepath : String) :
    Except String WorkflowMetadata :=
  match attrGet workflow "nodes" (.arr []) with
  | .error e => .error e
  | .ok nodesVal =>
    match pyIter nodesVal with
    | .error e => .error e
    | .ok nodes =>
      match countNodeTypes [] nodes with
      | .error e => .error e
      | .ok node_types =>
        match attrGet workflow "connections" (.obj []) with
        | .error e => .error e
        | .ok connections =>
          match count_connections connections with
          | .error e => .error e
          | .ok connections_count =>
            match attrGet workflow "id" (.str "unknown") with
            | .error e => .error e
            | .ok wid =>
              match attrGet workflow "name" (.str "unnamed") with
              | .error e => .error e
              | .ok wname =>
                match pyLen nodesVal with
                | .error e => .error e
                | .ok node_count =>
                  match pyContains "connections" workflow with
                  | .error e => .error e
                  | .ok hasConn =>
                    .ok ⟨filepath, wid, wname, node_count, node_types,
                         hasConn, connections_count⟩

/-- Models `WorkflowValidator.scan_directory` (lines 183-201) at the default
pattern used by `analyze_batch`. -/
def scan_directory (fs : FS) (directory : String) (pattern : String) : List String :=
  match fs directory with
  | .directory globEntries => globEntries pattern
  | _ => []

/-- Models `pathlib.Path(p).stem`: last path component without its final suffix.
(The pathlib corner case of a leading-dot name is not modelled; no claim
uses such a path.) -/
def pathStem (p : String) : String :=
  let base := (p.splitOn "/").getLastD p
  let parts := base.splitOn "."
  if parts.length ≤ 1 then base else String.intercalate "." parts.dropLast

/-- Command line built by `AgenticRadarExecutor.run` (lines 229-235). -/
def radarCmd (workflow_path output_path : String) : List String :=
  ["agentic-radar", "scan", workflow_path, "--output", output_path]

/-- Command line built by `SemgrepExecutor.run` (lines 320-325). -/
def semgrepCmd (rules_path workflow_path : String) : List String :=
  ["semgrep", "--config", rules_path, "--json", workflow_path]

/-- The synthetic informational finding of `_parse_output` (lines 289-294). -/
def radarSyntheticFinding (html_file : String) : Json :=
  .obj [("tool", .str "agentic-radar"),
        ("type", .str "report_generated"),
        ("message", .str ("HTML report generated at " ++ html_file)),
        ("severity", .str "info")]

/-- The structured-artifact phase of `AgenticRadarExecutor._parse_output`
(lines 272-284): the value of `findings` after the JSON block.  A missing
artifact is skipped; any exception while opening or parsing it is caught by
the blanket handler, leaving `findings` empty; a parsed dict contributes its
`findings` entry, a parsed list contributes itself, anything else nothing. -/
def radarJsonPhase (fs : FS) (json_file : String) : Json :=
  match fs json_file with
  | .jsonFile data =>
    match data with
    | .obj dfields =>
      match dfields.lookup "findings" with
      | some v => v
      | none => .arr []
    | .arr xs => .arr xs
    | _ => .arr []
  | _ => .arr []

/-- Models `AgenticRadarExecutor._parse_output` (lines 259-296).  The `.error`
case is the `findings.append` call raising on a falsy non-list `findings`
value; it is caught by the blanket handler of the caller. -/
def radar_parse_output (fs : FS) (output_path workflow_name : String) :
    Except String Json :=
  let json_file := output_path ++ "/" ++ workflow_name ++ ".json"
  let html_file := output_path ++ "/" ++ workflow_name ++ ".html"
  let findings := radarJsonPhase fs json_file
  if (fs html_file).existsB && pyFalsy findings then
    pyAppend findings (radarSyntheticFinding html_file)
  else
    .ok findings

/-- Models `AgenticRadarExecutor.run` (lines 215-257).  All exceptions are caught
inside the method, so it is total. -/
def radar_run (env : Env) (output_dir workflow_path : String) :
    Json × Bool × String :=
  let workflow_name := pathStem workflow_path
  let output_path := output_dir ++ "/" ++ workflow_name ++ "_radar"
  match env.subproc (radarCmd workflow_path output_path) with
  | .timedOut => (.arr [], false, "Agentic Radar execution timed out")
  | .notFound => (.arr [], false, "Agentic Radar not found. Is it installed?")
  | .otherError e => (.arr [], false, "Agentic Radar execution error: " ++ e)
  | .completed rc _ stderr =>
    if rc != 0 then
      (.arr [], false, "Agentic Radar failed: " ++ stderr)
    else
      match radar_parse_output env.fs output_path workflow_name with
      | .ok findings => (findings, true, "")
      | .error e => (.arr [], false, "Agentic Radar execution error: " ++ e)

/-- One entry of the `results` loop of `SemgrepExecutor._parse_output`
(lines 366-376); raises when the entry or its `extra`/`start` values are
not dicts. -/
def semgrepFinding (r : Json) : Except String Json :=
  match attrGet r "check_id" (.str "unknown") with
  | .error e => .error e
  | .ok check_id =>
    match attrGet r "message" (.str "") with
    | .error e => .error e
    | .ok msgTop =>
      match attrGet r "extra" (.obj []) with
      | .error e => .error e
      | .ok extra =>
        match attrGet extra "message" msgTop with
        | .error e => .error e
        | .ok message =>
          match attrGet extra "severity" (.str "WARNING") with
          | .error e => .error e
          | .ok severity =>
            match attrGet r "path" (.str "") with
            | .error e => .error e
            | .ok path =>
              match attrGet r "start" (.obj []) with
              | .error e => .error e
              | .ok start =>
                match attrGet start "line" (.num 0) with
                | .error e => .error e
                | .ok line =>
                  match attrGet extra "lines" (.str "") with
                  | .error e => .error e
                  | .ok code =>
                    match attrGet extra "metadata" (.obj []) with
                    | .error e => .error e
                    | .ok metadata =>
                      .ok (.obj [("tool", .str "semgrep"),
                                 ("rule_id", check_id),
                                 ("message", message),
                                 ("severity", severity),
                                 ("path", path),
                                 ("line", line),
                                 ("code", code),
                                 ("metadata", metadata)])

/-- Models `SemgrepExecutor._parse_output` (lines 350-382): only
`json.JSONDecodeError` is caught (yielding the empty list); exceptions of
the `results` loop escape to the caller. -/
def semgrep_parse_output (stdout : Parsed) : Except String Json :=
  match stdout with
  | .bad _ => .ok (.arr [])
  | .ok data =>
    match pyContains "results" data with
    | .error e => .error e
    | .ok hasResults =>
      if hasResults then
        match pySubscript data "results" with
        | .error e => .error e
        | .ok rs =>
          match pyIter rs with
          | .error e => .error e
          | .ok items =>
            match items.mapM semgrepFinding with
            | .error e => .error e
            | .ok fs => .ok (.arr fs)
      else .ok (.arr [])

/-- Models `SemgrepExecutor.run` (lines 305-348).  All exceptions are caught
inside the method, so it is total. -/
def semgrep_run (env : Env) (rules_path workflow_path : String) :
    Json × Bool × String :=
  if !(env.fs rules_path).existsB then
    (.arr [], false, "Semgrep rules not found: " ++ rules_path)
  else
    match env.subproc (semgrepCmd rules_path workflow_path) with
    | .timedOut => (.arr [], false, "Semgrep execution timed out")
    | .notFound => (.arr [], false, "Semgrep not found. Is it installed?")
    | .otherError e => (.arr [], false, "Semgrep execution error: " ++ e)
    | .completed rc stdout stderr =>
      if rc != 0 && rc != 1 then
        (.arr [], false, "Semgrep failed: " ++ stderr)
      else
        match semgrep_parse_output stdout with
        | .ok findings => (findings, true, "")
        | .error e => (.arr [], false, "Semgrep execution error: " ++ e)

/-- The per-tool degrade step of `analyze` (lines 433-437 and 443-447): a
failed tool has its findings replaced by the empty list; a successful tool has its findings
are kept after `len(findings)` is computed for the completion message. -/
def toolFindings (run : Json × Bool × String) : Except String Json :=
  if run.2.1 then
    match pyLen run.1 with
    | .error e => .error e
    | .ok _ => .ok run.1
  else .ok (.arr [])

/-- Models `HybridAnalyzer.analyze` (lines 394-464).  The final two `pyLen` calls
model `total_findings` (line 459). -/
def analyze (env : Env) (output_dir rules_path workflow_path : String) :
    Except String (Option AnalysisResult) :=
  match load_workflow env.fs workflow_path with
  | .error e => .error e
  | .ok (wopt, validation) =>
    if !validation.valid then .ok none
    else
      match wopt with
      | none => .error "AttributeError: NoneType object has no attribute get"
      | some w =>
        match extract_metadata w workflow_path with
        | .error e => .error e
        | .ok metadata =>
          match toolFindings (radar_run env output_dir workflow_path) with
          | .error e => .error e
          | .ok radar_findings =>
            match toolFindings (semgrep_run env rules_path workflow_path) with
            | .error e => .error e
            | .ok semgrep_findings =>
              match pyLen radar_findings with
              | .error e => .error e
              | .ok nr =>
                match pyLen semgrep_findings with
                | .error e => .error e
                | .ok ns =>
                  .ok (some
                    { workflow_path := workflow_path
                      metadata := metadata
                      agentic_radar_findings := radar_findings
                      semgrep_findings := semgrep_findings
                      total_findings := nr + ns
                      execution_time := (env.time1 : Int) - (env.time0 : Int)
                      timestamp := env.tstamp })

/-- The accumulation step of the `analyze_batch` loop (lines 480-483):
only non-`None` records are appended. -/
def batchStep (env : Env) (output_dir rules_path : String)
    (acc : List AnalysisResult) (f : String) : Except String (List AnalysisResult) :=
  match analyze env output_dir rules_path f with
  | .error e => .error e
  | .ok (some r) => .ok (acc ++ [r])
  | .ok none => .ok acc

/-- Models `HybridAnalyzer.analyze_batch` (lines 466-485). -/
def analyze_batch (env : Env) (output_dir rules_path directory : String) :
    Except String (List AnalysisResult) :=
  (scan_directory env.fs directory "*.json").foldlM
    (batchStep env output_dir rules_path) []

mutual

/-- Python `repr()` of a JSON value (the rendering f-strings use for
values nested inside containers); string escaping inside `repr` is
abstracted to plain quoting. -/
def pyRepr : Json → String
  | .null => "None"
  | .bool b => if b then "True" else "False"
  | .num n => toString n
  | .str s => "\x27" ++ s ++ "\x27"
  | .arr xs => "[" ++ pyReprElems xs ++ "]"
  | .obj fs => "\x7b" ++ pyReprFields fs ++ "\x7d"

def pyReprElems : List Json → String
  | [] => ""
  | [x] => pyRepr x
  | x :: y :: xs => pyRepr x ++ ", " ++ pyReprElems (y :: xs)

def pyReprFields : List (String × Json) → String
  | [] => ""
  | [(k, v)] => "\x27" ++ k ++ "\x27: " ++ pyRepr v
  | (k, v) :: y :: xs => "\x27" ++ k ++ "\x27: " ++ pyRepr v ++ ", " ++ pyReprFields (y :: xs)

end

/-- Python `str()` of a JSON value, as interpolated by an f-string. -/
def pyStr : Json → String
  | .str s => s
  | v => pyRepr v

/-- The string a Python format spec `:.2f` would print is abstracted: the
modelled execution time is integral seconds. -/
def fmtExecTime (t : Int) : String :=
  toString t ++ ".00"

/-- Models `generate_json_report` (lines 492-515): the JSON value passed to
`json.dump` (serialization to text by the standard library is the external
boundary; it is a function of this value).  Non-string `node_types` dict
keys are stringified the way `json.dump` does. -/
def jsonKeyStr : Json → String
  | .str s => s
  | .bool b => if b then "true" else "false"
  | .null => "null"
  | .num n => toString n
  | v => pyStr v

def generate_json_report (results : List AnalysisResult) : Json :=
  .arr (results.map (fun r =>
    .obj [("workflow_path", .str r.workflow_path),
          ("workflow_name", r.metadata.workflow_name),
          ("workflow_id", r.metadata.workflow_id),
          ("node_count", .num r.metadata.node_count),
          ("node_types", .obj (r.metadata.node_types.map
              (fun p => (jsonKeyStr p.1, Json.num p.2)))),
          ("analysis", .obj
            [("agentic_radar_findings", r.agentic_radar_findings),
             ("semgrep_findings", r.semgrep_findings),
             ("total_findings", .num r.total_findings),
             ("execution_time", .num r.execution_time),
             ("timestamp", .str r.timestamp)])]))

/-- One line of the Agentic Radar findings loop (line 548); raises when
the finding value is not a dict. -/
def mdRadarFinding (finding : Json) : Except String String :=
  match attrGet finding "type" (.str "Unknown") with
  | .error e => .error e
  | .ok ty =>
    match attrGet finding "message" (.str "") with
    | .error e => .error e
    | .ok msg => .ok ("- **" ++ pyStr ty ++ "**: " ++ pyStr msg ++ "\n")

/-- One line of the Semgrep findings loop (lines 556-561). -/
def mdSemgrepFinding (finding : Json) : Except String String :=
  match attrGet finding "severity" (.str "UNKNOWN") with
  | .error e => .error e
  | .ok severity =>
    match attrGet finding "rule_id" (.str "unknown") with
    | .error e => .error e
    | .ok rule =>
      match attrGet finding "message" (.str "") with
      | .error e => .error e
      | .ok message =>
        match attrGet finding "line" (.num 0) with
        | .error e => .error e
        | .ok line =>
          .ok ("- **[" ++ pyStr severity ++ "]** " ++ pyStr rule ++
               " (line " ++ pyStr line ++ "): " ++ pyStr message ++ "\n")

/-- Sequential file writes with a possible uncaught exception: the output
written so far, and the exception (if any) that aborted the emitter. -/
def writeLoop (f : Json → Except String String) : List Json → String × Option String
  | [] => ("", none)
  | x :: xs =>
    match f x with
    | .error e => ("", some e)
    | .ok s =>
      let rest := writeLoop f xs
      (s ++ rest.1, rest.2)

/-- The findings subsection of one tool in the markdown report (lines 544-551
and 553-564): heading with `len(findings)`, then either the findings loop
or the `No findings.` placeholder, then a blank line. -/
def mdToolSection (title : String) (f : Json → Except String String)
    (findings : Json) : String × Option String :=
  match pyLen findings with
  | .error e => ("", some e)
  | .ok n =>
    let head := "### " ++ title ++ " (" ++ toString n ++ ")\n\n"
    if !pyFalsy findings then
      match pyIter findings with
      | .error e => (head, some e)
      | .ok items =>
        let body := writeLoop f items
        (head ++ body.1 ++ (if body.2.isNone then "\n" else ""), body.2)
    else
      (head ++ "No findings.\n" ++ "\n", none)

/-- One per-workflow section of the markdown report (lines 536-565). -/
def mdSection (idx : Nat) (r : AnalysisResult) : String × Option String :=
  let head :=
    "## Workflow " ++ toString idx ++ ": " ++ pyStr r.metadata.workflow_name ++ "\n\n" ++
    "**Path:** `" ++ r.workflow_path ++ "`\n\n" ++
    "**Metadata:**\n" ++
    "- Workflow ID: " ++ pyStr r.metadata.workflow_id ++ "\n" ++
    "- Node count: " ++ toString r.metadata.node_count ++ "\n" ++
    "- Execution time: " ++ fmtExecTime r.execution_time ++ "s\n\n"
  let radar := mdToolSection "Agentic Radar Findings" mdRadarFinding
      r.agentic_radar_findings
  match radar.2 with
  | some e => (head ++ radar.1, some e)
  | none =>
    let sg := mdToolSection "Semgrep Findings" mdSemgrepFinding r.semgrep_findings
    match sg.2 with
    | some e => (head ++ radar.1 ++ sg.1, some e)
    | none => (head ++ radar.1 ++ sg.1 ++ "---\n\n", none)

/-- The per-workflow loop of the markdown report, numbering from `idx`. -/
def mdSections (idx : Nat) : List AnalysisResult → String × Option String
  | [] => ("", none)
  | r :: rs =>
    let s := mdSection idx r
    match s.2 with
    | some e => (s.1, some e)
    | none =>
      let rest := mdSections (idx + 1) rs
      (s.1 ++ rest.1, rest.2)

/-- Models `sum(len(findings) for ...)` over the per-result finding values (lines
527-528); raises when some finding value has no `len`. -/
def sumPyLens : List Json → Except String Nat
  | [] => .ok 0
  | v :: vs =>
    match pyLen v with
    | .error e => .error e
    | .ok n =>
      match sumPyLens vs with
      | .error e => .error e
      | .ok m => .ok (n + m)

/-- Everything `generate_markdown_report` writes after the `Generated`
clock value (lines 523-565): the workflow-count line, the summary block and
the per-workflow sections, stopping at the first uncaught exception. -/
def mdAfterHeader (results : List AnalysisResult) : String × Option String :=
  let intro := "\n\n**Total workflows analyzed:** " ++ toString results.length ++ "\n\n"
  match sumPyLens (results.map (fun r => r.agentic_radar_findings)) with
  | .error e => (intro, some e)
  | .ok totalRadar =>
    match sumPyLens (results.map (fun r => r.semgrep_findings)) with
    | .error e => (intro, some e)
    | .ok totalSemgrep =>
      let total := (results.map (fun r => r.total_findings)).sum
      let summary :=
        "## Summary\n\n" ++
        "- Total findings: " ++ toString total ++ "\n" ++
        "- Agentic Radar findings: " ++ toString totalRadar ++ "\n" ++
        "- Semgrep findings: " ++ toString totalSemgrep ++ "\n\n"
      let body := mdSections 1 results
      (intro ++ summary ++ body.1, body.2)

/-- Models `generate_markdown_report` (lines 518-567): the document written to the
output file (and the uncaught exception, if the emitter aborted midway).
`gen_time` is the `datetime.now().strftime` reading taken at line 522. -/
def generate_markdown_report (gen_time : String) (results : List AnalysisResult) :
    String × Option String :=
  let rest := mdAfterHeader results
  ("# n8n Workflow Security Analysis Report\n\n**Generated:** " ++ gen_time ++ rest.1,
   rest.2)

/-!
Concrete fixtures used by witnesses and counterexamples.
-/

/-- A workflow whose `nodes` list holds a non-record element: accepted by
`validate_structure` (warning only). -/
def docNonRecordNode : Json := .obj [("nodes", .arr [.str "x"])]

/-- A workflow whose `connections` field is present but not a mapping:
accepted by `validate_structure` (warning only). -/
def docListConnections : Json := .obj [("nodes", .arr []), ("connections", .arr [])]

/-- The worked scenario of the specification (section 8). -/
def docScenario : Json :=
  .obj [("nodes", .arr [
          .obj [("id", .str "1"), ("name", .str "A"), ("type", .str "http")],
          .obj [("id", .str "2"), ("name", .str "B"), ("type", .str "http")]]),
        ("connections", .obj [("1", .obj [("main", .arr [.arr [.str "2"]])])])]

/-- A well-formed workflow with an empty node list. -/
def docEmptyNodes : Json := .obj [("nodes", .arr [])]

/-- The metadata the extractor produces for `docScenario`. -/
def metaScenario : WorkflowMetadata :=
  ⟨"w.json", .str "unknown", .str "unnamed", 2, [(.str "http", 2)], true, 1⟩

/-- The metadata the extractor produces for `docEmptyNodes`. -/
def metaEmptyNodes : WorkflowMetadata :=
  ⟨"w.json", .str "unknown", .str "unnamed", 0, [], false, 0⟩

/-- Filesystem with a single parseable workflow file that fails structural
validation (no `nodes` field). -/
def fsInvalidDoc : FS := fun p =>
  if p == "inv.json" then .jsonFile (.obj []) else .missing

/-- Environment with a single unparseable workflow file. -/
def envBadFile : Env :=
  { fs := fun p => if p == "bad.json" then .badJson "boom" else .missing
    subproc := fun _ => .timedOut
    time0 := 0, time1 := 0, tstamp := "T" }

/-- Environment where the workflow file is valid, the rules file exists,
the radar subprocess times out and the semgrep subprocess succeeds with an
empty `results` list. -/
def envRadarTimeout : Env :=
  { fs := fun p =>
      if p == "w.json" then .jsonFile docEmptyNodes
      else if p == "rules.yaml" then .jsonFile .null
      else .missing
    subproc := fun cmd =>
      if cmd.headD "" == "agentic-radar" then .timedOut
      else .completed 0 (.ok (.obj [("results", .arr [])])) ""
    time0 := 3, time1 := 5, tstamp := "T" }

/-- Filesystem where the radar JSON artifact exists but cannot be parsed
and the companion HTML report exists. -/
def fsBadArtifactWithHtml : FS := fun p =>
  if p == "out/w_radar/w.json" then .badJson "not valid json"
  else if p == "out/w_radar/w.html" then .badJson "html text"
  else .missing

/-- Filesystem where no radar JSON artifact exists and the companion HTML
report exists. -/
def fsNoArtifactWithHtml : FS := fun p =>
  if p == "out/w_radar/w.html" then .badJson "html text"
  else .missing

/-- Sum of the counters of the `node_types` dict. -/
def sumCounts (m : List (Json × Nat)) : Nat := (m.map Prod.snd).sum

/-- Modelled from the spec: the contribution of one `connections` value,
"the number of entries in that inner mapping" for a mapping, zero
otherwise. -/
def connLen : Json → Nat
  | .obj inner => inner.length
  | _ => 0

/-- Modelled from the spec: "`connectionsCount` equals the sum of
entry-counts over exactly those values that are themselves mappings". -/
def spec_connections_count (conns : List (String × Json)) : Nat :=
  (conns.map (fun p => connLen p.2)).sum

/-!
Helper lemmas.
-/

theorem append_ne_of_take_ne (a b : String) (n : Nat) (hn : n ≤ a.data.length)
    (hd : a.data.take n ≠ b.data.take n) : ∀ e, a ++ e ≠ b := by
  intro e h
  apply hd
  have h2 := congrArg (fun s => s.data.take n) h
  simpa [String.data_append, List.take_append_of_le_length hn] using h2

theorem string_cancel {p t t' r : String} (h : p ++ t ++ r = p ++ t' ++ r) : t = t' := by
  have h2 := congrArg String.data h
  simp only [String.data_append, List.append_assoc] at h2
  exact String.ext (List.append_cancel_right (List.append_cancel_left h2))

theorem nodesCheck_valid_iff {w : Json} {flag : Bool} {errs warns : List String}
    (h : nodesCheck w = .ok (flag, errs, warns)) : flag = true ↔ errs = [] := by
  unfold nodesCheck at h
  split at h
  · simp at h
  · split at h
    · simp only [Except.ok.injEq, Prod.mk.injEq] at h
      obtain ⟨h1, h2, _⟩ := h
      subst h1; subst h2; decide
    · split at h
      · simp at h
      · simp only [Except.ok.injEq, Prod.mk.injEq] at h
        obtain ⟨h1, h2, _⟩ := h
        subst h1; subst h2; decide
      · simp only [Except.ok.injEq, Prod.mk.injEq] at h
        obtain ⟨h1, h2, _⟩ := h
        subst h1; subst h2; decide

theorem validate_structure_valid_iff {w : Json} {r : ValidationResult}
    (h : validate_structure w = .ok r) : r.valid = true ↔ r.errors = [] := by
  unfold validate_structure at h
  split at h
  · simp at h
  · rename_i heq
    split at h
    · simp at h
    · simp only [Except.ok.injEq] at h
      subst h
      exact nodesCheck_valid_iff heq

/-- C2: for every outcome produced by `load_workflow` or
`validate_structure`, the `valid` flag is true exactly when the `errors`
sequence is empty; in particular the warnings content never influences
`valid`. -/
theorem C2_valid_iff_errors_empty :
    (∀ (fs : FS) (p : String) (pr : Option Json × ValidationResult),
       load_workflow fs p = .ok pr → (pr.2.valid = true ↔ pr.2.errors = [])) ∧
    (∀ (w : Json) (r : ValidationResult),
       validate_structure w = .ok r → (r.valid = true ↔ r.errors = [])) := by
  constructor
  · intro fs p pr h
    unfold load_workflow at h
    split at h
    · simp only [Except.ok.injEq] at h; subst h; simp
    · simp only [Except.ok.injEq] at h; subst h; simp
    · simp only [Except.ok.injEq] at h; subst h; simp
    · simp only [Except.ok.injEq] at h; subst h; simp
    · split at h
      · simp at h
      · rename_i validation heq
        split at h
        · simp only [Except.ok.injEq] at h; subst h
          exact validate_structure_valid_iff heq
        · simp only [Except.ok.injEq] at h; subst h; simp
  · intro w r h
    exact validate_structure_valid_iff h

/-- Witness for C2 at the concrete document with no `nodes` field. -/
theorem C2_valid_iff_errors_empty_witness :
    validate_structure (Json.obj []) =
      .ok ⟨false, ["Missing required field: \x27nodes\x27"],
           ["Workflow has no \x27connections\x27 field"]⟩ ∧
    (false = true ↔ (["Missing required field: \x27nodes\x27"] : List String) = []) :=
  ⟨rfl,
   C2_valid_iff_errors_empty.2 (.obj [])
     ⟨false, ["Missing required field: \x27nodes\x27"],
      ["Workflow has no \x27connections\x27 field"]⟩ rfl⟩

/-- C10: when the file exists, is a regular file and parses but structural
validation fails, `load_workflow` returns the parsed document itself (not
`none`) paired with the failing outcome; the returned document is `none`
only for the file-level failures (missing file, not a regular file, read
error, parse error). -/
theorem C10_document_kept_on_structural_failure :
    (∀ (fs : FS) (p : String) (w : Json) (r : ValidationResult),
       fs p = .jsonFile w → validate_structure w = .ok r → r.valid = false →
       load_workflow fs p = .ok (some w, r)) ∧
    (∀ (fs : FS) (p : String) (d : Option Json) (r : ValidationResult),
       load_workflow fs p = .ok (d, r) → d = none →
       fs p = .missing ∨ (∃ g, fs p = .directory g) ∨
       (∃ e, fs p = .unreadable e) ∨ (∃ e, fs p = .badJson e)) := by
  constructor
  · intro fs p w r hfs hv hval
    simp [load_workflow, hfs, hv, hval]
  · intro fs p d r h hd
    subst hd
    unfold load_workflow at h
    split at h
    · rename_i heq
      exact Or.inl heq
    · rename_i g heq
      exact Or.inr (Or.inl ⟨g, heq⟩)
    · rename_i e heq
      exact Or.inr (Or.inr (Or.inr ⟨e, heq⟩))
    · rename_i e heq
      exact Or.inr (Or.inr (Or.inl ⟨e, heq⟩))
    · split at h
      · simp at h
      · split at h <;> simp at h

/-- Witness for C10 at a concrete file whose document lacks `nodes`. -/
theorem C10_document_kept_on_structural_failure_witness :
    load_workflow fsInvalidDoc "inv.json" =
      .ok (some (.obj []),
           ⟨false, ["Missing required field: \x27nodes\x27"],
            ["Workflow has no \x27connections\x27 field"]⟩) :=
  C10_document_kept_on_structural_failure.1 fsInvalidDoc "inv.json" (.obj [])
    ⟨false, ["Missing required field: \x27nodes\x27"],
     ["Workflow has no \x27connections\x27 field"]⟩ rfl rfl rfl

theorem any_key_of_lookup {fields : List (String × Json)} {k : String} {v : Json}
    (h : fields.lookup k = some v) : fields.any (fun p => p.1 == k) = true := by
  induction fields with
  | nil => simp at h
  | cons hd tl ih =>
    rcases hd with ⟨k', v'⟩
    simp only [List.lookup] at h
    simp only [List.any_cons]
    by_cases hk : k = k'
    · subst hk; simp
    · have hb : (k == k') = false := by simpa using hk
      rw [hb] at h
      simp only [ih h, Bool.or_true]

theorem mem_of_mem_enum {α : Type} {l : List α} {p : Nat × α} (h : p ∈ l.enum) :
    p.2 ∈ l := by
  rw [List.mem_enum_iff_getElem?] at h
  exact List.getElem?_mem h

/-- C8: a document whose `nodes` is a sequence of records each carrying
`id`, `name` and `type`, and whose `connections` is present and a mapping,
passes `validate_structure` with no errors and no warnings. -/
theorem C8_wellformed_accepted :
    ∀ (fields : List (String × Json)) (ns : List Json) (conns : List (String × Json)),
      fields.lookup "nodes" = some (.arr ns) →
      (∀ n ∈ ns, ∃ nf, n = Json.obj nf ∧
         (∃ x, nf.lookup "id" = some x) ∧
         (∃ x, nf.lookup "name" = some x) ∧
         (∃ x, nf.lookup "type" = some x)) →
      fields.lookup "connections" = some (.obj conns) →
      validate_structure (.obj fields) = .ok ⟨true, [], []⟩ := by
  intro fields ns conns hn hnodes hc
  have hwarn : (ns.enum.map (fun p => nodeWarnings p.1 p.2)).flatten = [] := by
    rw [List.flatten_eq_nil_iff]
    intro x hx
    rw [List.mem_map] at hx
    obtain ⟨p, hp, hpx⟩ := hx
    obtain ⟨nf, hobj, ⟨xi, hi⟩, ⟨xn, hm⟩, ⟨xt, ht⟩⟩ := hnodes p.2 (mem_of_mem_enum hp)
    subst hpx
    rw [hobj]
    simp [nodeWarnings, hi, hm, ht]
  have hcont : pyContains "nodes" (.obj fields) = .ok true := by
    simp [pyContains, any_key_of_lookup hn]
  have hsub : pySubscript (.obj fields) "nodes" = .ok (.arr ns) := by
    simp [pySubscript, hn]
  have hcontC : pyContains "connections" (.obj fields) = .ok true := by
    simp [pyContains, any_key_of_lookup hc]
  have hsubC : pySubscript (.obj fields) "connections" = .ok (.obj conns) := by
    simp [pySubscript, hc]
  simp [validate_structure, nodesCheck, connectionsCheck, hcont, hsub, hcontC,
        hsubC, hwarn]

/-- Witness for C8 at the worked scenario document of the specification. -/
theorem C8_wellformed_accepted_witness :
    validate_structure docScenario = .ok ⟨true, [], []⟩ :=
  C8_wellformed_accepted
    [("nodes", .arr [
        .obj [("id", .str "1"), ("name", .str "A"), ("type", .str "http")],
        .obj [("id", .str "2"), ("name", .str "B"), ("type", .str "http")]]),
     ("connections", .obj [("1", .obj [("main", .arr [.arr [.str "2"]])])])]
    [.obj [("id", .str "1"), ("name", .str "A"), ("type", .str "http")],
     .obj [("id", .str "2"), ("name", .str "B"), ("type", .str "http")]]
    [("1", .obj [("main", .arr [.arr [.str "2"]])])]
    rfl
    (by
      intro n hn
      simp only [List.mem_cons, List.not_mem_nil, or_false] at hn
      rcases hn with h | h <;> subst h
      · exact ⟨_, rfl, ⟨.str "1", rfl⟩, ⟨.str "A", rfl⟩, ⟨.str "http", rfl⟩⟩
      · exact ⟨_, rfl, ⟨.str "2", rfl⟩, ⟨.str "B", rfl⟩, ⟨.str "http", rfl⟩⟩)
    rfl

theorem sumCounts_bumpCount (m : List (Json × Nat)) (k : Json) :
    sumCounts (bumpCount m k) = sumCounts m + 1 := by
  induction m with
  | nil => simp [bumpCount, sumCounts]
  | cons hd tl ih =>
    rcases hd with ⟨k', v⟩
    by_cases h : k'.scalarEq k = true
    · simp [bumpCount, h, sumCounts]
      omega
    · have h2 : k'.scalarEq k = false := by simpa using h
      simp only [bumpCount, h2, Bool.false_eq_true, if_false]
      simp only [sumCounts, List.map_cons, List.sum_cons] at ih ⊢
      omega

theorem countNodeTypes_sum (ns : List Json) :
    ∀ (acc tys : List (Json × Nat)), countNodeTypes acc ns = .ok tys →
      sumCounts tys = sumCounts acc + ns.length := by
  induction ns with
  | nil =>
    intro acc tys h
    simp only [countNodeTypes, Except.ok.injEq] at h
    subst h
    simp
  | cons n rest ih =>
    intro acc tys h
    simp only [countNodeTypes] at h
    split at h
    · simp at h
    · split at h
      · have h2 := ih _ _ h
        rw [h2, sumCounts_bumpCount]
        simp only [List.length_cons]
        omega
      · simp at h

theorem pySubscript_ok {v : Json} {k : String} {x : Json}
    (h : pySubscript v k = .ok x) :
    ∃ fields, v = .obj fields ∧ fields.lookup k = some x := by
  cases v <;> simp only [pySubscript] at h
  case obj fields =>
    split at h
    · rename_i y hy
      simp only [Except.ok.injEq] at h
      subst h
      exact ⟨fields, rfl, hy⟩
    · simp at h
  all_goals simp_all

theorem validate_valid_shape {w : Json} {r : ValidationResult}
    (h : validate_structure w = .ok r) (hv : r.valid = true) :
    ∃ fields ns, w = .obj fields ∧ fields.lookup "nodes" = some (Json.arr ns) := by
  unfold validate_structure at h
  split at h
  · simp at h
  · rename_i heq
    split at h
    · simp at h
    · simp only [Except.ok.injEq] at h
      subst h
      simp only at hv
      unfold nodesCheck at heq
      split at heq
      · simp at heq
      · split at heq
        · simp only [Except.ok.injEq, Prod.mk.injEq] at heq
          exact absurd (heq.1 ▸ hv) (by simp)
        · split at heq
          · simp at heq
          · rename_i hsub
            obtain ⟨fields, hw, hl⟩ := pySubscript_ok hsub
            exact ⟨fields, _, hw, hl⟩
          · simp only [Except.ok.injEq, Prod.mk.injEq] at heq
            exact absurd (heq.1 ▸ hv) (by simp)

theorem extract_metadata_node_facts {fields : List (String × Json)} {ns : List Json}
    {p : String} {m : WorkflowMetadata}
    (hn : fields.lookup "nodes" = some (.arr ns))
    (h : extract_metadata (.obj fields) p = .ok m) :
    countNodeTypes [] ns = .ok m.node_types ∧ m.node_count = ns.length := by
  unfold extract_metadata at h
  simp only [attrGet, hn, pyIter, pyLen, pyContains] at h
  split at h
  · simp at h
  · rename_i tys htys
    repeat' split at h
    all_goals
      first
        | exact Except.noConfusion h
        | (injection h with h2; subst h2; exact ⟨htys, rfl⟩)

theorem extract_metadata_connections_fact {fields conns : List (String × Json)}
    {p : String} {m : WorkflowMetadata}
    (hc : fields.lookup "connections" = some (.obj conns))
    (h : extract_metadata (.obj fields) p = .ok m) :
    m.connections_count =
      (conns.map Prod.snd).foldl
        (fun a c => match c with | Json.obj inner => a + inner.length | _ => a) 0 := by
  unfold extract_metadata at h
  simp only [attrGet, hc, count_connections, dictValues] at h
  repeat' split at h
  all_goals
    first
      | exact Except.noConfusion h
      | (injection h with h2; subst h2; rfl)

theorem foldl_connLen (vals : List Json) :
    ∀ a : Nat,
      vals.foldl (fun a c => match c with | Json.obj inner => a + inner.length | _ => a) a
        = a + (vals.map connLen).sum := by
  induction vals with
  | nil => intro a; simp
  | cons v vs ih =>
    intro a
    cases v <;> (simp [List.foldl_cons, ih, connLen]; try omega)

/-- C7: for every document accepted as valid, the values of the extracted
`node_types` dict sum to `node_count`, and `node_count` is the length of
the `nodes` sequence of the document (stated under the hypothesis that the
extractor returned, cf. C1). -/
theorem C7_node_counts :
    ∀ (w : Json) (r : ValidationResult),
      validate_structure w = .ok r → r.valid = true →
      ∀ (p : String) (m : WorkflowMetadata),
        extract_metadata w p = .ok m →
        sumCounts m.node_types = m.node_count ∧
        ∀ (fields : List (String × Json)) (ns : List Json),
          w = .obj fields → fields.lookup "nodes" = some (.arr ns) →
          m.node_count = ns.length := by
  intro w r hv hvalid p m hm
  obtain ⟨fields, ns, hw, hn⟩ := validate_valid_shape hv hvalid
  subst hw
  obtain ⟨htys, hcount⟩ := extract_metadata_node_facts hn hm
  constructor
  · have hs := countNodeTypes_sum ns [] m.node_types htys
    rw [hs, hcount]
    simp [sumCounts]
  · intro fields' ns' hw' hn'
    injection hw' with hf
    subst hf
    rw [hn] at hn'
    injection hn' with harr
    injection harr with hns
    subst hns
    exact hcount

/-- Witness for C7 at the worked scenario document of the specification. -/
theorem C7_node_counts_witness :
    sumCounts [(Json.str "http", 2)] = 2 ∧ (2 : Nat) = 2 :=
  ⟨(C7_node_counts docScenario ⟨true, [], []⟩ rfl rfl "w.json" metaScenario rfl).1,
   (C7_node_counts docScenario ⟨true, [], []⟩ rfl rfl "w.json" metaScenario rfl).2
     [("nodes", .arr [
        .obj [("id", .str "1"), ("name", .str "A"), ("type", .str "http")],
        .obj [("id", .str "2"), ("name", .str "B"), ("type", .str "http")]]),
      ("connections", .obj [("1", .obj [("main", .arr [.arr [.str "2"]])])])]
     [.obj [("id", .str "1"), ("name", .str "A"), ("type", .str "http")],
      .obj [("id", .str "2"), ("name", .str "B"), ("type", .str "http")]]
     rfl rfl⟩

/-- C9: for every document whose `connections` field is a mapping, the
extracted `connections_count` is the sum of the entry counts of exactly
those values that are themselves mappings (non-mappings contribute zero),
and the counting expression itself never raises. -/
theorem C9_connections_count :
    (∀ (conns : List (String × Json)),
       count_connections (.obj conns) = .ok (spec_connections_count conns)) ∧
    (∀ (fields conns : List (String × Json)) (p : String) (m : WorkflowMetadata),
       fields.lookup "connections" = some (.obj conns) →
       extract_metadata (.obj fields) p = .ok m →
       m.connections_count = spec_connections_count conns) := by
  constructor
  · intro conns
    simp only [count_connections, dictValues]
    rw [foldl_connLen]
    simp [spec_connections_count, List.map_map]
    rfl
  · intro fields conns p m hc h
    rw [extract_metadata_connections_fact hc h, foldl_connLen]
    simp [spec_connections_count, List.map_map]
    rfl

/-- Witness for C9 at the worked scenario connections of the specification. -/
theorem C9_connections_count_witness :
    (1 : Nat) = spec_connections_count [("1", .obj [("main", .arr [.arr [.str "2"]])])] :=
  C9_connections_count.2
    [("nodes", .arr [
        .obj [("id", .str "1"), ("name", .str "A"), ("type", .str "http")],
        .obj [("id", .str "2"), ("name", .str "B"), ("type", .str "http")]]),
     ("connections", .obj [("1", .obj [("main", .arr [.arr [.str "2"]])])])]
    [("1", .obj [("main", .arr [.arr [.str "2"]])])]
    "w.json" metaScenario rfl rfl

theorem analyze_path_eq {env : Env} {od rp f : String} {rec : AnalysisResult}
    (h : analyze env od rp f = .ok (some rec)) : rec.workflow_path = f := by
  unfold analyze at h
  repeat' split at h
  all_goals
    first
      | exact Except.noConfusion h
      | (injection h with h2; exact Option.noConfusion h2)
      | (injection h with h2; injection h2 with h3; subst h3; rfl)

theorem analyze_batch_mem {env : Env} {od rp : String} :
    ∀ (files : List String) (acc results : List AnalysisResult),
      files.foldlM (batchStep env od rp) acc = .ok results →
      ∀ rec ∈ results, rec ∈ acc ∨ ∃ f ∈ files, analyze env od rp f = .ok (some rec) := by
  intro files
  induction files with
  | nil =>
    intro acc results h rec hrec
    simp only [List.foldlM_nil] at h
    injection h with h2
    subst h2
    exact Or.inl hrec
  | cons f fs ih =>
    intro acc results h rec hrec
    simp only [List.foldlM_cons] at h
    unfold batchStep at h
    split at h
    · simp [bind, Except.bind] at h
    · rename_i r ha
      simp only [bind, Except.bind] at h
      rcases ih _ _ h rec hrec with hacc | ⟨g, hg, hag⟩
      · rcases List.mem_append.mp hacc with h1 | h1
        · exact Or.inl h1
        · simp only [List.mem_singleton] at h1
          subst h1
          exact Or.inr ⟨f, by simp, ha⟩
      · exact Or.inr ⟨g, by simp [hg], hag⟩
    · rename_i ha
      simp only [bind, Except.bind] at h
      rcases ih _ _ h rec hrec with hacc | ⟨g, hg, hag⟩
      · exact Or.inl hacc
      · exact Or.inr ⟨g, by simp [hg], hag⟩

/-- C3: a workflow file that fails validation makes `analyze` return
`none` under every subprocess environment (so neither analyzer adapter is
invoked), and no entry for such a file ever appears in the list returned by
`analyze_batch`. -/
theorem C3_invalid_file_skipped :
    (∀ (fs : FS) (sp : List String → SubprocResult) (t0 t1 : Nat) (ts : String)
       (od rp p : String) (d : Option Json) (r : ValidationResult),
       load_workflow fs p = .ok (d, r) → r.valid = false →
       analyze ⟨fs, sp, t0, t1, ts⟩ od rp p = .ok none) ∧
    (∀ (env : Env) (od rp dir p : String) (d : Option Json) (r : ValidationResult),
       load_workflow env.fs p = .ok (d, r) → r.valid = false →
       ∀ results, analyze_batch env od rp dir = .ok results →
         ∀ rec ∈ results, rec.workflow_path ≠ p) := by
  have key : ∀ (env : Env) (od rp p : String) (d : Option Json) (r : ValidationResult),
      load_workflow env.fs p = .ok (d, r) → r.valid = false →
      analyze env od rp p = .ok none := by
    intro env od rp p d r hl hv
    simp [analyze, hl, hv]
  constructor
  · intro fs sp t0 t1 ts od rp p d r hl hv
    exact key ⟨fs, sp, t0, t1, ts⟩ od rp p d r hl hv
  · intro env od rp dir p d r hl hv results hb rec hrec hpath
    rcases analyze_batch_mem _ _ _ hb rec hrec with h0 | ⟨f, _, ha⟩
    · simp at h0
    · have hpf := analyze_path_eq ha
      rw [hpath] at hpf
      subst hpf
      have h1 := key env od rp _ d r hl hv
      rw [h1] at ha
      injection ha with h2
      exact Option.noConfusion h2

/-- Witness for C3 at a concrete unparseable file. -/
theorem C3_invalid_file_skipped_witness :
    analyze envBadFile "analysis_output" "rules/n8n-generic-patterns.yaml" "bad.json" =
      .ok none :=
  C3_invalid_file_skipped.1 envBadFile.fs envBadFile.subproc 0 0 "T"
    "analysis_output" "rules/n8n-generic-patterns.yaml" "bad.json"
    none ⟨false, ["Invalid JSON syntax: boom"], []⟩ rfl rfl

/-- C1 (code bug): `validate_structure` accepts — with warnings only, by
design — a document whose `nodes` list holds a non-record element, and one
whose `connections` field is present but not a mapping; yet
`extract_metadata` raises an uncaught `AttributeError` on both (at
`node.get` and at `connections.values()` respectively) instead of
returning defaulted metadata. -/
theorem C1_extract_raises_on_accepted_document :
    validate_structure docNonRecordNode =
      .ok ⟨true, [], ["Node at index 0 is not an object",
                      "Workflow has no \x27connections\x27 field"]⟩ ∧
    (∃ e, extract_metadata docNonRecordNode "workflow.json" = .error e) ∧
    validate_structure docListConnections =
      .ok ⟨true, [], ["Field \x27connections\x27 should be an object"]⟩ ∧
    (∃ e, extract_metadata docListConnections "workflow.json" = .error e) :=
  ⟨rfl, ⟨_, rfl⟩, rfl, ⟨_, rfl⟩⟩

theorem semgrep_parse_output_arr {s : Parsed} {v : Json}
    (h : semgrep_parse_output s = .ok v) : ∃ xs, v = .arr xs := by
  unfold semgrep_parse_output at h
  repeat' split at h
  all_goals
    first
      | exact Except.noConfusion h
      | (injection h with h2; exact ⟨_, h2.symm⟩)

theorem semgrep_run_arr (env : Env) (rp p : String) :
    ∃ xs, (semgrep_run env rp p).1 = .arr xs := by
  unfold semgrep_run
  repeat' split
  all_goals
    first
      | exact ⟨_, rfl⟩
      | (rename_i heq; exact semgrep_parse_output_arr heq)

theorem analyze_radar_failed {env : Env} {od rp p : String} {w : Json}
    {vr : ValidationResult} {m : WorkflowMetadata} {sgF : Json} {sgE : String}
    (hl : load_workflow env.fs p = .ok (some w, vr)) (hv : vr.valid = true)
    (hm : extract_metadata w p = .ok m)
    (hrf : (radar_run env od p).2.1 = false)
    (hsg : semgrep_run env rp p = (sgF, true, sgE)) :
    ∃ (rec : AnalysisResult) (ns : Nat),
      pyLen sgF = .ok ns ∧
      analyze env od rp p = .ok (some rec) ∧
      rec.metadata = m ∧
      rec.agentic_radar_findings = .arr [] ∧
      rec.semgrep_findings = sgF ∧
      rec.total_findings = ns := by
  have hsgarr : ∃ xs, sgF = .arr xs := by
    have h := semgrep_run_arr env rp p
    rw [hsg] at h
    exact h
  obtain ⟨xs, hxs⟩ := hsgarr
  subst hxs
  refine ⟨⟨p, m, .arr [], .arr xs, 0 + xs.length,
          (env.time1 : Int) - env.time0, env.tstamp⟩, xs.length, rfl, ?_, rfl, rfl, rfl, by simp⟩
  simp [analyze, hl, hv, hm, toolFindings, hrf, hsg, pyLen]

theorem analyze_semgrep_failed {env : Env} {od rp p : String} {w : Json}
    {vr : ValidationResult} {m : WorkflowMetadata} {rdF : Json} {rdE : String} {nr : Nat}
    (hl : load_workflow env.fs p = .ok (some w, vr)) (hv : vr.valid = true)
    (hm : extract_metadata w p = .ok m)
    (hrd : radar_run env od p = (rdF, true, rdE)) (hnr : pyLen rdF = .ok nr)
    (hsf : (semgrep_run env rp p).2.1 = false) :
    ∃ (rec : AnalysisResult),
      analyze env od rp p = .ok (some rec) ∧
      rec.metadata = m ∧
      rec.semgrep_findings = .arr [] ∧
      rec.agentic_radar_findings = rdF ∧
      rec.total_findings = nr := by
  have h1 : toolFindings (radar_run env od p) = .ok rdF := by
    rw [hrd]
    simp [toolFindings, hnr]
  have h2 : toolFindings (semgrep_run env rp p) = .ok (.arr []) := by
    simp [toolFindings, hsf]
  have h3 : pyLen (Json.arr []) = .ok 0 := rfl
  refine ⟨⟨p, m, rdF, .arr [], nr + 0,
          (env.time1 : Int) - env.time0, env.tstamp⟩, ?_, rfl, rfl, rfl, by simp⟩
  simp [analyze, hl, hv, hm, h1, h2, h3, hnr]

theorem radar_run_timeout {env : Env} {od p : String}
    (h : env.subproc (radarCmd p (od ++ "/" ++ pathStem p ++ "_radar")) = .timedOut) :
    radar_run env od p = (.arr [], false, "Agentic Radar execution timed out") := by
  simp [radar_run, h]

theorem radar_run_notfound {env : Env} {od p : String}
    (h : env.subproc (radarCmd p (od ++ "/" ++ pathStem p ++ "_radar")) = .notFound) :
    radar_run env od p = (.arr [], false, "Agentic Radar not found. Is it installed?") := by
  simp [radar_run, h]

theorem radar_run_bad_exit {env : Env} {od p : String} {rc : Int} {out : Parsed} {err : String}
    (h : env.subproc (radarCmd p (od ++ "/" ++ pathStem p ++ "_radar")) = .completed rc out err)
    (hrc : rc ≠ 0) :
    radar_run env od p = (.arr [], false, "Agentic Radar failed: " ++ err) := by
  have hb : (rc != 0) = true := by simpa using hrc
  simp [radar_run, h, hb]

theorem semgrep_run_timeout {env : Env} {rp p : String}
    (hr : (env.fs rp).existsB = true)
    (h : env.subproc (semgrepCmd rp p) = .timedOut) :
    semgrep_run env rp p = (.arr [], false, "Semgrep execution timed out") := by
  simp [semgrep_run, hr, h]

theorem semgrep_run_notfound {env : Env} {rp p : String}
    (hr : (env.fs rp).existsB = true)
    (h : env.subproc (semgrepCmd rp p) = .notFound) :
    semgrep_run env rp p = (.arr [], false, "Semgrep not found. Is it installed?") := by
  simp [semgrep_run, hr, h]

theorem semgrep_run_bad_exit {env : Env} {rp p : String} {rc : Int} {out : Parsed} {err : String}
    (hr : (env.fs rp).existsB = true)
    (h : env.subproc (semgrepCmd rp p) = .completed rc out err)
    (hrc0 : rc ≠ 0) (hrc1 : rc ≠ 1) :
    semgrep_run env rp p = (.arr [], false, "Semgrep failed: " ++ err) := by
  have hb0 : (rc != 0) = true := by simpa using hrc0
  have hb1 : (rc != 1) = true := by simpa using hrc1
  simp [semgrep_run, hr, h, hb0, hb1]

example : ∀ e, "Agentic Radar failed: " ++ e ≠ "Agentic Radar execution timed out" :=
  append_ne_of_take_ne _ _ 15 (by decide) (by decide)

example : ∀ e, "Agentic Radar failed: " ++ e ≠ "Agentic Radar not found. Is it installed?" :=
  append_ne_of_take_ne _ _ 15 (by decide) (by decide)

example : ∀ e, "Semgrep failed: " ++ e ≠ "Semgrep execution timed out" :=
  append_ne_of_take_ne _ _ 9 (by decide) (by decide)

example : ∀ e, "Semgrep failed: " ++ e ≠ "Semgrep not found. Is it installed?" :=
  append_ne_of_take_ne _ _ 9 (by decide) (by decide)

/-- C4: for either adapter, a subprocess timeout, a missing executable or
a disallowed exit code yields `success=false` with an empty finding list
and an error message; the three messages are pairwise distinct for each
adapter (timeout and not-found messages are fixed and unequal, and every
bad-exit message differs from both); and inside `analyze` on a valid
workflow a failed adapter degrades to an empty finding list while the
findings of the other adapter are kept in the produced `AnalysisResult`. -/
theorem C4_adapter_failure_modes :
    (∀ (env : Env) (od p : String),
       env.subproc (radarCmd p (od ++ "/" ++ pathStem p ++ "_radar")) = .timedOut →
       radar_run env od p = (.arr [], false, "Agentic Radar execution timed out")) ∧
    (∀ (env : Env) (od p : String),
       env.subproc (radarCmd p (od ++ "/" ++ pathStem p ++ "_radar")) = .notFound →
       radar_run env od p = (.arr [], false, "Agentic Radar not found. Is it installed?")) ∧
    (∀ (env : Env) (od p : String) (rc : Int) (out : Parsed) (err : String),
       env.subproc (radarCmd p (od ++ "/" ++ pathStem p ++ "_radar")) = .completed rc out err →
       rc ≠ 0 →
       radar_run env od p = (.arr [], false, "Agentic Radar failed: " ++ err)) ∧
    (∀ (env : Env) (rp p : String),
       (env.fs rp).existsB = true →
       env.subproc (semgrepCmd rp p) = .timedOut →
       semgrep_run env rp p = (.arr [], false, "Semgrep execution timed out")) ∧
    (∀ (env : Env) (rp p : String),
       (env.fs rp).existsB = true →
       env.subproc (semgrepCmd rp p) = .notFound →
       semgrep_run env rp p = (.arr [], false, "Semgrep not found. Is it installed?")) ∧
    (∀ (env : Env) (rp p : String) (rc : Int) (out : Parsed) (err : String),
       (env.fs rp).existsB = true →
       env.subproc (semgrepCmd rp p) = .completed rc out err →
       rc ≠ 0 → rc ≠ 1 →
       semgrep_run env rp p = (.arr [], false, "Semgrep failed: " ++ err)) ∧
    (("Agentic Radar execution timed out" ≠ "Agentic Radar not found. Is it installed?") ∧
     (∀ e, "Agentic Radar failed: " ++ e ≠ "Agentic Radar execution timed out") ∧
     (∀ e, "Agentic Radar failed: " ++ e ≠ "Agentic Radar not found. Is it installed?") ∧
     ("Semgrep execution timed out" ≠ "Semgrep not found. Is it installed?") ∧
     (∀ e, "Semgrep failed: " ++ e ≠ "Semgrep execution timed out") ∧
     (∀ e, "Semgrep failed: " ++ e ≠ "Semgrep not found. Is it installed?")) ∧
    (∀ (env : Env) (od rp p : String) (w : Json) (vr : ValidationResult)
       (m : WorkflowMetadata) (sgF : Json) (sgE : String),
       load_workflow env.fs p = .ok (some w, vr) → vr.valid = true →
       extract_metadata w p = .ok m →
       (radar_run env od p).2.1 = false →
       semgrep_run env rp p = (sgF, true, sgE) →
       ∃ (rec : AnalysisResult) (ns : Nat),
         pyLen sgF = .ok ns ∧
         analyze env od rp p = .ok (some rec) ∧
         rec.metadata = m ∧
         rec.agentic_radar_findings = .arr [] ∧
         rec.semgrep_findings = sgF ∧
         rec.total_findings = ns) ∧
    (∀ (env : Env) (od rp p : String) (w : Json) (vr : ValidationResult)
       (m : WorkflowMetadata) (rdF : Json) (rdE : String) (nr : Nat),
       load_workflow env.fs p = .ok (some w, vr) → vr.valid = true →
       extract_metadata w p = .ok m →
       radar_run env od p = (rdF, true, rdE) → pyLen rdF = .ok nr →
       (semgrep_run env rp p).2.1 = false →
       ∃ (rec : AnalysisResult),
         analyze env od rp p = .ok (some rec) ∧
         rec.metadata = m ∧
         rec.semgrep_findings = .arr [] ∧
         rec.agentic_radar_findings = rdF ∧
         rec.total_findings = nr) :=
  ⟨fun _ _ _ h => radar_run_timeout h,
   fun _ _ _ h => radar_run_notfound h,
   fun _ _ _ _ _ _ h hrc => radar_run_bad_exit h hrc,
   fun _ _ _ hr h => semgrep_run_timeout hr h,
   fun _ _ _ hr h => semgrep_run_notfound hr h,
   fun _ _ _ _ _ _ hr h h0 h1 => semgrep_run_bad_exit hr h h0 h1,
   ⟨by decide,
    append_ne_of_take_ne _ _ 15 (by decide) (by decide),
    append_ne_of_take_ne _ _ 15 (by decide) (by decide),
    by decide,
    append_ne_of_take_ne _ _ 9 (by decide) (by decide),
    append_ne_of_take_ne _ _ 9 (by decide) (by decide)⟩,
   fun _ _ _ _ _ _ _ _ _ hl hv hm hrf hsg => analyze_radar_failed hl hv hm hrf hsg,
   fun _ _ _ _ _ _ _ _ _ _ hl hv hm hrd hnr hsf =>
     analyze_semgrep_failed hl hv hm hrd hnr hsf⟩

/-- Witness for C4: concrete environment where the radar subprocess times
out and semgrep succeeds with an empty result list. -/
theorem C4_adapter_failure_modes_witness :
    radar_run envRadarTimeout "analysis_output" "w.json" =
      (.arr [], false, "Agentic Radar execution timed out") ∧
    (∃ (rec : AnalysisResult) (ns : Nat),
       pyLen (Json.arr []) = .ok ns ∧
       analyze envRadarTimeout "analysis_output" "rules.yaml" "w.json" = .ok (some rec) ∧
       rec.metadata = metaEmptyNodes ∧
       rec.agentic_radar_findings = .arr [] ∧
       rec.semgrep_findings = .arr [] ∧
       rec.total_findings = ns) :=
  ⟨C4_adapter_failure_modes.1 envRadarTimeout "analysis_output" "w.json" rfl,
   C4_adapter_failure_modes.2.2.2.2.2.2.2.1 envRadarTimeout "analysis_output"
     "rules.yaml" "w.json" docEmptyNodes ⟨true, [], []⟩ metaEmptyNodes (.arr []) ""
     rfl rfl rfl rfl rfl⟩

/-- C5 counterexample: with `fsBadArtifactWithHtml` the structured JSON
artifact for the workflow is found (it exists) but parsing it fails, yet
the parser emits the synthetic informational finding rather than the empty
sequence — refuting both the "exactly when no structured artifact is
found" direction and the "parse failure falls back to the empty sequence"
part of the claim. -/
theorem C5_counterexample :
    (fsBadArtifactWithHtml "out/w_radar/w.json").existsB = true ∧
    fsBadArtifactWithHtml "out/w_radar/w.json" = .badJson "not valid json" ∧
    radar_parse_output fsBadArtifactWithHtml "out/w_radar" "w" =
      .ok (.arr [radarSyntheticFinding "out/w_radar/w.html"]) :=
  ⟨rfl, rfl, rfl⟩

/-- C5 amended: the parser emits the single synthetic informational
finding (recording the report location) whenever the companion HTML report
exists and the structured phase yielded an empty finding list — in
particular when no JSON artifact exists, but also when the artifact exists
and fails to parse, and when it parses to a mapping that lacks a
`findings` entry or whose `findings` entry is the empty list; the fallback
to the empty sequence on a parse failure holds when no HTML report exists;
and no synthetic finding is emitted when the phase yielded a truthy value
or no HTML report exists. -/
theorem C5_amended_synthetic_finding :
    (∀ (fs : FS) (od wn : String),
       fs (od ++ "/" ++ wn ++ ".json") = .missing →
       (fs (od ++ "/" ++ wn ++ ".html")).existsB = true →
       radar_parse_output fs od wn =
         .ok (.arr [radarSyntheticFinding (od ++ "/" ++ wn ++ ".html")])) ∧
    (∀ (fs : FS) (od wn : String) (e : String),
       fs (od ++ "/" ++ wn ++ ".json") = .badJson e →
       (fs (od ++ "/" ++ wn ++ ".html")).existsB = true →
       radar_parse_output fs od wn =
         .ok (.arr [radarSyntheticFinding (od ++ "/" ++ wn ++ ".html")])) ∧
    (∀ (fs : FS) (od wn : String) (dfields : List (String × Json)),
       fs (od ++ "/" ++ wn ++ ".json") = .jsonFile (.obj dfields) →
       dfields.lookup "findings" = none →
       (fs (od ++ "/" ++ wn ++ ".html")).existsB = true →
       radar_parse_output fs od wn =
         .ok (.arr [radarSyntheticFinding (od ++ "/" ++ wn ++ ".html")])) ∧
    (∀ (fs : FS) (od wn : String) (dfields : List (String × Json)),
       fs (od ++ "/" ++ wn ++ ".json") = .jsonFile (.obj dfields) →
       dfields.lookup "findings" = some (.arr []) →
       (fs (od ++ "/" ++ wn ++ ".html")).existsB = true →
       radar_parse_output fs od wn =
         .ok (.arr [radarSyntheticFinding (od ++ "/" ++ wn ++ ".html")])) ∧
    (∀ (fs : FS) (od wn : String),
       radarJsonPhase fs (od ++ "/" ++ wn ++ ".json") = .arr [] →
       (fs (od ++ "/" ++ wn ++ ".html")).existsB = true →
       radar_parse_output fs od wn =
         .ok (.arr [radarSyntheticFinding (od ++ "/" ++ wn ++ ".html")])) ∧
    (∀ (fs : FS) (od wn : String) (e : String),
       fs (od ++ "/" ++ wn ++ ".json") = .badJson e →
       (fs (od ++ "/" ++ wn ++ ".html")).existsB = false →
       radar_parse_output fs od wn = .ok (.arr [])) ∧
    (∀ (fs : FS) (od wn : String),
       pyFalsy (radarJsonPhase fs (od ++ "/" ++ wn ++ ".json")) = false →
       radar_parse_output fs od wn =
         .ok (radarJsonPhase fs (od ++ "/" ++ wn ++ ".json"))) ∧
    (∀ (fs : FS) (od wn : String),
       (fs (od ++ "/" ++ wn ++ ".html")).existsB = false →
       radar_parse_output fs od wn =
         .ok (radarJsonPhase fs (od ++ "/" ++ wn ++ ".json"))) := by
  refine ⟨?_, ?_, ?_, ?_, ?_, ?_, ?_, ?_⟩
  · intro fs od wn h1 h2
    simp [radar_parse_output, radarJsonPhase, h1, h2, pyFalsy, pyAppend]
  · intro fs od wn e h1 h2
    simp [radar_parse_output, radarJsonPhase, h1, h2, pyFalsy, pyAppend]
  · intro fs od wn dfields h1 hl h2
    simp [radar_parse_output, radarJsonPhase, h1, hl, h2, pyFalsy, pyAppend]
  · intro fs od wn dfields h1 hl h2
    simp [radar_parse_output, radarJsonPhase, h1, hl, h2, pyFalsy, pyAppend]
  · intro fs od wn h1 h2
    simp [radar_parse_output, h1, h2, pyFalsy, pyAppend]
  · intro fs od wn e h1 h2
    simp [radar_parse_output, radarJsonPhase, h1, h2, pyFalsy]
  · intro fs od wn h1
    simp [radar_parse_output, h1]
  · intro fs od wn h1
    simp [radar_parse_output, h1]

/-- Witness for the amended C5 at a concrete filesystem with only the
HTML report. -/
theorem C5_amended_synthetic_finding_witness :
    radar_parse_output fsNoArtifactWithHtml "out/w_radar" "w" =
      .ok (.arr [radarSyntheticFinding "out/w_radar/w.html"]) :=
  C5_amended_synthetic_finding.1 fsNoArtifactWithHtml "out/w_radar" "w" rfl rfl

/-- C6 counterexample: two runs of the markdown emitter on the identical
(empty) batch list, at clock readings one second apart, produce different
documents — the `Generated` header embeds the emission-time wall clock. -/
theorem C6_counterexample :
    (generate_markdown_report "2025-01-01 00:00:00" []).1 ≠
    (generate_markdown_report "2025-01-01 00:00:01" []).1 := by
  decide

/-- C6 amended: the structured (JSON) emitter is deterministic in the
batch list alone, and the markdown emitter is deterministic exactly in the
batch list together with the emission-time clock reading: two runs agree
iff their clock readings agree. -/
theorem C6_amended_determinism :
    ∀ (t t' : String) (res : List AnalysisResult),
      generate_json_report res = generate_json_report res ∧
      ((generate_markdown_report t res).1 = (generate_markdown_report t' res).1 ↔ t = t') := by
  intro t t' res
  refine ⟨rfl, ?_, ?_⟩
  · intro h
    simp only [generate_markdown_report] at h
    exact string_cancel h
  · intro h
    subst h
    rfl
